import Mathlib

/-!
Verification development for the xsignal backend signal pipeline.

Shallow embedding conventions:
* Python floats are modelled as exact rationals (`ℚ`); the pipeline performs no
  operation whose behaviour depends on float rounding error here, and NaN propagation
  from short histories is modelled with `Option ℚ` (a `none` indicator value is
  what pandas/ta report as NaN for insufficient history; `safe_last` then
  substitutes the default, exactly as `_safe_last` in `ai/scoring.py` does).
* A candle dataframe is a chronological `List Candle` (row 0 oldest); pandas
  `iloc[-1]` / `iloc[-2]` become indices `length - 1` / `length - 2`.
* The external I/O boundaries (Binance fetches, the Firestore store, config
  loading) are passed in as explicit arguments: fetched dataframes become list
  parameters, the Firestore `signal_queue` collection becomes an
  `Option (List QueueRecord)` ordered newest first (Firestore's
  `order_by createdAt descending`), `none` meaning the client is unavailable.
* Indexing a dataframe with fewer than 2 rows raises IndexError in the source;
  the model is total and the claims are stated away from that case.
-/

/-- One OHLCV candle (a row of the dataframes built in `ai/data_feed.py`). -/
structure Candle where
  open_ : ℚ
  high : ℚ
  low : ℚ
  close : ℚ
  volume : ℚ
deriving DecidableEq

/-- Default candle used to totalise out-of-range indexing. -/
def cdef : Candle := ⟨0, 0, 0, 0, 0⟩

/-- Row `i` of a dataframe (total; out of range gives `cdef`). -/
def nthC (df : List Candle) (i : ℕ) : Candle := df.getD i cdef

/-- Python `df["close"].iloc[-1]`. -/
def lastClose (df : List Candle) : ℚ := (nthC df (df.length - 1)).close

/-- Python `df["volume"].iloc[-1]`. -/
def lastVol (df : List Candle) : ℚ := (nthC df (df.length - 1)).volume

/-- `_clamp01` from `ai/scoring.py`: `np.clip(x, 0.0, 1.0)`. -/
def clamp01 (x : ℚ) : ℚ := min (max x 0) 1

/-- `_normalize_from_range` from `ai/scoring.py`: map `[lo..hi]` to `[0..1]` and clamp;
`0` when `hi <= lo`. -/
def normalize_from_range (x lo hi : ℚ) : ℚ :=
  if hi ≤ lo then 0 else clamp01 ((x - lo) / (hi - lo))

/-- `_safe_last` from `ai/scoring.py`: last value of an indicator series, or the
default when the series reports NaN/Inf (modelled as `none`). -/
def safe_last (v : Option ℚ) (d : ℚ) : ℚ := v.getD d

/-- Python `int()` applied to a float: truncation toward zero. -/
def pytrunc (q : ℚ) : ℤ := if 0 ≤ q then ⌊q⌋ else -⌊-q⌋

/-- Round-half-to-even to an integer, the rounding mode of Python `round`. -/
def roundHE (q : ℚ) : ℤ :=
  if q - ⌊q⌋ < 1/2 then ⌊q⌋
  else if (1:ℚ)/2 < q - ⌊q⌋ then ⌊q⌋ + 1
  else if Even ⌊q⌋ then ⌊q⌋ else ⌊q⌋ + 1

/-- Python `round(x, 4)` (banker's rounding at the 4th decimal). -/
def pyround4 (q : ℚ) : ℚ := (roundHE (q * 10000) : ℚ) / 10000

/-- Maximum of a list of rationals (`0` for the empty list, which the source
never reaches on the guarded paths). -/
def qmax : List ℚ → ℚ
  | [] => 0
  | x :: xs => xs.foldl max x

/-- Minimum of a list of rationals. -/
def qmin : List ℚ → ℚ
  | [] => 0
  | x :: xs => xs.foldl min x

/-- Arithmetic mean of the last `w` entries produced by `f` over rows
`n - w .. n - 1` (pandas `rolling(w).mean().iloc[-1]` of a series indexed by row). -/
def rollMeanLast (f : ℕ → ℚ) (n w : ℕ) : ℚ :=
  (((List.range w).map (fun k => f (n - w + k))).sum) / w

/-- True range of row `i` (row 0 has no previous close, pandas' skipna max
leaves `high - low`). Modelled from the spec: ATR is "the rolling mean of
max(high−low, |high−prevclose|, |low−prevclose|)"; the `ta` library computing it
in `ai/scoring.py` / `ai/signal_engine.py` is external to this repository. -/
def trAt (df : List Candle) (i : ℕ) : ℚ :=
  if i = 0 then (nthC df 0).high - (nthC df 0).low
  else
    max (max ((nthC df i).high - (nthC df i).low)
             |(nthC df i).high - (nthC df (i - 1)).close|)
        |(nthC df i).low - (nthC df (i - 1)).close|

/-- Modelled from the spec: last value of the 14-period ATR series
(rolling mean of true range); `none` (NaN) with fewer than 14 rows. -/
def atrLast (df : List Candle) : Option ℚ :=
  if 14 ≤ df.length then some (rollMeanLast (trAt df) df.length 14) else none

/-- Modelled from the spec: last value of an exponential moving average with
span `w` (`ta.trend.EMAIndicator`, i.e. pandas `ewm(span=w, adjust=False,
min_periods=w)`): the recurrence seeded at the first row, `none` (NaN) with
fewer than `w` rows. -/
def emaLast (w : ℕ) (xs : List ℚ) : Option ℚ :=
  match xs with
  | [] => none
  | x :: rest =>
    if w ≤ rest.length + 1 then
      some (rest.foldl (fun acc v => acc + (2 / ((w : ℚ) + 1)) * (v - acc)) x)
    else none

/-- Closes column of a dataframe. -/
def closes (df : List Candle) : List ℚ := df.map (fun c => c.close)

/-- Upward close change at row `i` (`i ≥ 1`). -/
def upMoveAt (df : List Candle) (i : ℕ) : ℚ :=
  max ((nthC df i).close - (nthC df (i - 1)).close) 0

/-- Downward close change at row `i` (`i ≥ 1`). -/
def dnMoveAt (df : List Candle) (i : ℕ) : ℚ :=
  max ((nthC df (i - 1)).close - (nthC df i).close) 0

/-- Wilder running average of `f` over rows `1 .. upto`: seeded with the plain
mean of the first 14 values, then `avg ← (13·avg + f i)/14`. -/
def wilderAvg (f : ℕ → ℚ) (upto : ℕ) : ℚ :=
  (List.range (upto - 14)).foldl
    (fun a k => (13 * a + f (15 + k)) / 14)
    ((((List.range 14).map (fun k => f (k + 1))).sum) / 14)

/-- Modelled from the spec: last value of the 14-period RSI
(`ta.momentum.RSIIndicator`, Wilder smoothing; external to this repository).
`none` models the NaN that `_safe_last` replaces with 50: fewer than 15 rows,
or a 0/0 relative strength. -/
def rsiLast (df : List Candle) : Option ℚ :=
  if df.length < 15 then none
  else
    let au := wilderAvg (upMoveAt df) (df.length - 1)
    let ad := wilderAvg (dnMoveAt df) (df.length - 1)
    if ad = 0 then (if au = 0 then none else some 100)
    else some (100 - 100 / (1 + au / ad))

/-- Positive directional movement at row `i` (`i ≥ 1`). -/
def pDMAt (df : List Candle) (i : ℕ) : ℚ :=
  let up := (nthC df i).high - (nthC df (i - 1)).high
  let dn := (nthC df (i - 1)).low - (nthC df i).low
  if dn < up ∧ 0 < up then up else 0

/-- Negative directional movement at row `i` (`i ≥ 1`). -/
def mDMAt (df : List Candle) (i : ℕ) : ℚ :=
  let up := (nthC df i).high - (nthC df (i - 1)).high
  let dn := (nthC df (i - 1)).low - (nthC df i).low
  if up < dn ∧ 0 < dn then dn else 0

/-- Wilder smoothed sum of `f` over rows `1 .. upto`:
seed `s₁₄ = Σ f(1..14)`, then `s ← s - s/14 + f i`. -/
def wilderSum (f : ℕ → ℚ) (upto : ℕ) : ℚ :=
  (List.range (upto - 14)).foldl
    (fun s k => s - s / 14 + f (15 + k))
    (((List.range 14).map (fun k => f (k + 1))).sum)

/-- Plus directional index at row `i` (0 on a zero smoothed true range). -/
def diPlusAt (df : List Candle) (i : ℕ) : ℚ :=
  let s := wilderSum (trAt df) i
  if s = 0 then 0 else 100 * wilderSum (pDMAt df) i / s

/-- Minus directional index at row `i`. -/
def diMinusAt (df : List Candle) (i : ℕ) : ℚ :=
  let s := wilderSum (trAt df) i
  if s = 0 then 0 else 100 * wilderSum (mDMAt df) i / s

/-- Directional index at row `i` (0 on a zero denominator, ta's fillna). -/
def dxAt (df : List Candle) (i : ℕ) : ℚ :=
  let dp := diPlusAt df i
  let dm := diMinusAt df i
  if dp + dm = 0 then 0 else 100 * |dp - dm| / (dp + dm)

/-- Modelled from the spec: last value of the 14-period Average Directional
Index (`ta.trend.ADXIndicator`, Wilder; external to this repository). Seeded at
row 27 with the mean of DX over rows 14..27, then Wilder-smoothed; `none` (NaN,
which `_safe_last` replaces with 0) with fewer than 28 rows. -/
def adxLast (df : List Candle) : Option ℚ :=
  if df.length < 28 then none
  else
    some ((List.range (df.length - 28)).foldl
      (fun a k => (13 * a + dxAt df (28 + k)) / 14)
      ((((List.range 14).map (fun k => dxAt df (14 + k))).sum) / 14))

/-- Last value of the 20-period simple moving average of volume
(`d["volume"].rolling(20).mean()`), `none` (NaN) with fewer than 20 rows. -/
def volSmaLast (df : List Candle) : Option ℚ :=
  if 20 ≤ df.length then
    some (rollMeanLast (fun i => (nthC df i).volume) df.length 20)
  else none

/-- `d["high"].rolling(20).max().iloc[-2]`: max of the highs of rows
`n-21 .. n-2`; `none` (NaN) when the window is incomplete (`n < 21`). -/
def hh20p (df : List Candle) : Option ℚ :=
  if 21 ≤ df.length then
    some (qmax ((List.range 20).map (fun k => (nthC df (df.length - 21 + k)).high)))
  else none

/-- `d["low"].rolling(20).min().iloc[-2]`, as in `hh20p`. -/
def ll20p (df : List Candle) : Option ℚ :=
  if 21 ≤ df.length then
    some (qmin ((List.range 20).map (fun k => (nthC df (df.length - 21 + k)).low)))
  else none

/-- `hh20_prev` of `extract_features`: the rolling value when `len(d) >= 22`,
otherwise `float(d["high"].max())` over the whole column. -/
def hhPrevF (df : List Candle) : ℚ :=
  if 22 ≤ df.length then
    qmax ((List.range 20).map (fun k => (nthC df (df.length - 21 + k)).high))
  else qmax (df.map (fun c => c.high))

/-- `ll20_prev` of `extract_features`, as in `hhPrevF`. -/
def llPrevF (df : List Candle) : ℚ :=
  if 22 ≤ df.length then
    qmin ((List.range 20).map (fun k => (nthC df (df.length - 21 + k)).low))
  else qmin (df.map (fun c => c.low))

/-- The raw intermediate values returned under `"explain"` by `extract_features`
(`ema_sep_frac` is the source's `ema_sep_ratio`, `vol_over_sma` its `vol_ratio`,
renamed only in the Lean identifiers). -/
structure Explain where
  breakout_score : ℚ
  vol_score : ℚ
  adx : ℚ
  adx_score : ℚ
  ema_sep_frac : ℚ
  sep_score : ℚ
  rsi : ℚ
  atr_pct : ℚ
  vol_over_sma : ℚ
deriving DecidableEq

/-- The bundle returned by `extract_features` in `ai/scoring.py`. -/
structure FeatureBundle where
  structure_strength : ℚ
  trend_strength : ℚ
  momentum : ℚ
  volatility : ℚ
  explain : Explain
deriving DecidableEq

/-- `extract_features` from `ai/scoring.py`, line by line. Indicator series from
the external `ta` library are the spec-modelled functions above; its NaN and the
`_safe_last` defaults are the `Option`/`safe_last` pairs. -/
def extract_features (df : List Candle) : FeatureBundle :=
  let last_close := lastClose df
  let last_atr := safe_last (atrLast df) 0
  let last_ema_fast := safe_last (emaLast 20 (closes df)) last_close
  let last_ema_slow := safe_last (emaLast 50 (closes df)) last_close
  let last_adx := safe_last (adxLast df) 0
  let last_rsi := safe_last (rsiLast df) 50
  let last_vol := lastVol df
  let last_vol_sma := safe_last (volSmaLast df) last_vol
  let hh20_prev := hhPrevF df
  let ll20_prev := llPrevF df
  let above_hh := if 0 < hh20_prev then (last_close - hh20_prev) / hh20_prev else 0
  let below_ll := if 0 < ll20_prev then (ll20_prev - last_close) / ll20_prev else 0
  let breakout_raw := max above_hh below_ll
  let breakout_score := normalize_from_range breakout_raw 0 (5 / 1000)      -- 0%..0.5%
  let vol_over_sma := if 0 < last_vol_sma then last_vol / last_vol_sma else 1
  let vol_score := normalize_from_range vol_over_sma (8/10) (18/10)         -- 0.8x..1.8x
  let structure_strength := clamp01 ((65/100) * breakout_score + (35/100) * vol_score)
  let adx_score := normalize_from_range last_adx 10 35
  let ema_sep := |last_ema_fast - last_ema_slow|
  let sep_frac := if 0 < last_close then ema_sep / last_close else 0
  let sep_score := normalize_from_range sep_frac 0 (1/100)                  -- 0%..1%
  let trend_strength := clamp01 ((7/10) * adx_score + (3/10) * sep_score)
  let momentum := clamp01 (|last_rsi - 50| / 20)
  let atr_pct := if 0 < last_close then last_atr / last_close else 0
  let volatility := normalize_from_range atr_pct (15/10000) (1/100)         -- 0.15%..1.0%
  { structure_strength := structure_strength
    trend_strength := trend_strength
    momentum := momentum
    volatility := volatility
    explain :=
      { breakout_score := breakout_score
        vol_score := vol_score
        adx := last_adx
        adx_score := adx_score
        ema_sep_frac := sep_frac
        sep_score := sep_score
        rsi := last_rsi
        atr_pct := atr_pct
        vol_over_sma := vol_over_sma } }

/-- The three-timeframe features bundle `{"f5": .., "f15": .., "f1h": ..}`. -/
structure TFBundle where
  f5 : FeatureBundle
  f15 : FeatureBundle
  f1h : FeatureBundle
deriving DecidableEq

/-- `calculate_xscore` from `ai/scoring.py`:
`int(np.clip(structure*35 + trend*35 + momentum*20 + volatility*10, 0, 100))`
with `trend = f15.trend_strength * 0.6 + f1h.trend_strength * 0.4`. -/
def calculate_xscore (b : TFBundle) : ℤ :=
  let struct := b.f5.structure_strength
  let trend := b.f15.trend_strength * (6/10) + b.f1h.trend_strength * (4/10)
  let momentum := b.f5.momentum
  let volatility := b.f5.volatility
  let score := struct * 35 + trend * 35 + momentum * 20 + volatility * 10
  pytrunc (min (max score 0) 100)

/-- The scoring formula exactly as the spec words it (§4.3): compute
`35·structure_strength(fast) + 35·(0.6·trend_strength(medium) +
0.4·trend_strength(slow)) + 20·momentum(fast) + 10·volatility(fast)`, clamp to
`[0,100]`, truncate toward zero. Stated from the spec, to be compared with
`calculate_xscore`. -/
def xscore_spec (b : TFBundle) : ℤ :=
  let raw := 35 * b.f5.structure_strength
    + 35 * ((6/10) * b.f15.trend_strength + (4/10) * b.f1h.trend_strength)
    + 20 * b.f5.momentum + 10 * b.f5.volatility
  pytrunc (min (max raw 0) 100)

/-- `_trend_dir` from `ai/multi_tf.py`. -/
def trend_dir (df : List Candle) : ℤ :=
  if df.length < 2 then 0
  else if (nthC df (df.length - 2)).close ≤ (nthC df (df.length - 1)).close then 1
  else -1

/-- `_structure_side` from `ai/multi_tf.py`: breakout side on the prior 20-bar
high/low, `"none"` with fewer than 25 candles. -/
def structure_side (df : List Candle) : String :=
  if df.length < 25 then "none"
  else
    match hh20p df, ll20p df with
    | some prev_hh, some prev_ll =>
      if prev_hh < lastClose df then "buy"
      else if lastClose df < prev_ll then "sell"
      else "none"
    | _, _ => "none"

/-- Result triple of `multi_tf_confirm`. -/
structure ConfirmResult where
  ok : Bool
  side : String
  bundle : TFBundle
deriving DecidableEq

/-- `multi_tf_confirm` from `ai/multi_tf.py`, with the three fetched dataframes
passed in for the `fetch_ohlcv_binance` calls. -/
def multi_tf_confirm (df5 df15 df1h : List Candle) : ConfirmResult :=
  let f5 := extract_features df5
  let f15 := extract_features df15
  let f1h := extract_features df1h
  let bundle : TFBundle := ⟨f5, f15, f1h⟩
  let side := structure_side df5
  if ¬(side = "buy" ∨ side = "sell") then ⟨false, "none", bundle⟩
  else
    let want : ℤ := if side = "buy" then 1 else -1
    let trend_ok := decide (trend_dir df15 = want) && decide (trend_dir df1h = want)
    let structure_ok := decide ((25/100 : ℚ) ≤ f5.structure_strength)
    let higher_tf_trend_ok := decide ((25/100 : ℚ) ≤ f15.trend_strength)
      && decide ((20/100 : ℚ) ≤ f1h.trend_strength)
    ⟨trend_ok && structure_ok && higher_tf_trend_ok, side, bundle⟩

/-- The signal dict returned by `generate_signal` in `ai/signal_engine.py`
(all price fields rounded to 4 decimals by the source). -/
structure Signal where
  side : String
  entry_min : ℚ
  entry_max : ℚ
  entry_mid : ℚ
  sl : ℚ
  tp1 : ℚ
  tp2 : ℚ
  tp3 : ℚ
deriving DecidableEq

/-- Break-of-structure side in `generate_signal`: `"buy"` when the last close
exceeds the prior 20-bar high, `"sell"` below the prior 20-bar low. With fewer
than 21 rows the rolling values are NaN and both Python comparisons are false,
so there is no side. -/
def bosSide (df : List Candle) : Option String :=
  match hh20p df, ll20p df with
  | some hh, some ll =>
    if hh < lastClose df then some "buy"
    else if lastClose df < ll then some "sell"
    else none
  | _, _ => none

/-- `pad = last["atr"] * (0.25 if mode == "scalp" else 0.5)`. -/
def padOf (df : List Candle) (mode : String) : ℚ :=
  safe_last (atrLast df) 0 * (if mode = "scalp" then (1/4 : ℚ) else 1/2)

/-- `entry_min = structure_low - pad` (previous bar's low). -/
def entryMinOf (df : List Candle) (mode : String) : ℚ :=
  (nthC df (df.length - 2)).low - padOf df mode

/-- `entry_max = structure_high + pad` (previous bar's high). -/
def entryMaxOf (df : List Candle) (mode : String) : ℚ :=
  (nthC df (df.length - 2)).high + padOf df mode

/-- `entry_mid = (entry_min + entry_max) / 2`. -/
def entryMidOf (df : List Candle) (mode : String) : ℚ :=
  (entryMinOf df mode + entryMaxOf df mode) / 2

/-- Stop loss: previous low − 0.5·ATR for buy, previous high + 0.5·ATR for sell. -/
def slOf (df : List Candle) (side : String) : ℚ :=
  if side = "buy" then (nthC df (df.length - 2)).low - safe_last (atrLast df) 0 / 2
  else (nthC df (df.length - 2)).high + safe_last (atrLast df) 0 / 2

/-- `risk = abs(entry_mid - sl)` as computed inside `generate_signal`. -/
def riskRaw (df : List Candle) (mode side : String) : ℚ :=
  |entryMidOf df mode - slOf df side|

/-- The risk `generate_signal` computes for a dataframe, `none` when no side
triggers (the function already returned `None` before reaching `risk`). -/
def riskOf (df : List Candle) (mode : String) : Option ℚ :=
  (bosSide df).map (fun side => riskRaw df mode side)

/-- `generate_signal` from `ai/signal_engine.py`. Note the source has no
explicit `risk ≤ 0` or missing-ATR rejection: after the breakout test it always
constructs and returns the signal dict. -/
def generate_signal (df : List Candle) (mode : String) : Option Signal :=
  match bosSide df with
  | none => none
  | some side =>
    let entry_min := entryMinOf df mode
    let entry_max := entryMaxOf df mode
    let entry_mid := entryMidOf df mode
    let sl := slOf df side
    let risk := |entry_mid - sl|
    let dir : ℚ := if side = "buy" then 1 else -1
    some
      { side := side
        entry_min := pyround4 entry_min
        entry_max := pyround4 entry_max
        entry_mid := pyround4 entry_mid
        sl := pyround4 sl
        tp1 := pyround4 (entry_mid + risk * dir)
        tp2 := pyround4 (entry_mid + risk * (2 * dir))
        tp3 := pyround4 (entry_mid + risk * (3 * dir)) }

/-- A loosely-typed Python value as it may appear in the Firestore config doc. -/
inductive PyVal where
  | pint (n : ℤ)
  | prat (q : ℚ)
  | pstr (s : String)
  | pbool (b : Bool)
  | pnone
deriving DecidableEq

/-- Python `int(v)`: `none` models the conversions that raise (`int(None)`,
`int` of a non-numeric string). `int` of a float truncates toward zero,
`int(True) = 1`. -/
def pyToInt : PyVal → Option ℤ
  | .pint n => some n
  | .prat q => some (pytrunc q)
  | .pstr s => s.toInt?
  | .pbool b => some (if b then 1 else 0)
  | .pnone => none

/-- The engine config dict: `load_engine_config` merges Firestore data over
`DEFAULTS`, but every consumer re-applies its own `.get` defaults, so each field
is modelled as optional (a missing key). -/
structure Config where
  enabled : Option Bool
  pairs : Option (List String)
  min_xscore_free : Option PyVal
  min_xscore_pro : Option PyVal
  min_xscore_xpro : Option PyVal
deriving DecidableEq

/-- `tier_from_xscore` from `ai/tier_router.py`: the three `int(cfg.get(...))`
conversions run inside one `try`, so if any raises, all three thresholds fall
back to 55/70/85; a merely missing key falls back to its own default inside
`.get` without affecting the others. -/
def tier_from_xscore (xscore : ℤ) (cfg : Config) : String :=
  let conv : Option (ℤ × ℤ × ℤ) :=
    match pyToInt (cfg.min_xscore_free.getD (.pint 55)),
          pyToInt (cfg.min_xscore_pro.getD (.pint 70)),
          pyToInt (cfg.min_xscore_xpro.getD (.pint 85)) with
    | some a, some b, some c => some (a, b, c)
    | _, _, _ => none
  let t := conv.getD (55, 70, 85)
  if t.2.2 ≤ xscore then "xpro"
  else if t.2.1 ≤ xscore then "pro"
  else if t.1 ≤ xscore then "free"
  else "reject"

/-- Tier routing with the full default thresholds 55/70/85, as the spec words
the fallback ("behaves identically to running with the full default thresholds").
Stated from the spec, to be compared with `tier_from_xscore`. -/
def tier_defaults (xscore : ℤ) : String :=
  if 85 ≤ xscore then "xpro"
  else if 70 ≤ xscore then "pro"
  else if 55 ≤ xscore then "free"
  else "reject"

/-- Moderation status of a queued signal. -/
inductive Status where
  | pending
  | approved
  | rejected
deriving DecidableEq

/-- A document of the `signal_queue` collection. `createdAt` is assigned by the
store (SERVER_TIMESTAMP); the store list is kept ordered newest first, so the
model never reads this field. -/
structure QueueRecord where
  pair : String
  mode : String
  side : String
  tier : String
  xscore : ℤ
  features : TFBundle
  signal : Signal
  status : Status
  createdAt : ℕ
deriving DecidableEq

/-- The Firestore filter of `should_spam_block`: same pair, same mode,
status `pending`. -/
def qmatches (pair mode : String) (r : QueueRecord) : Bool :=
  decide (r.pair = pair ∧ r.mode = mode ∧ r.status = Status.pending)

/-- `should_spam_block` from `ai/scheduler.py`: `false` when Firestore is
unavailable (fail open); otherwise the newest pending record for (pair, mode)
is fetched (`order_by createdAt desc, limit 1` on the newest-first store list)
and its side compared with the candidate's. -/
def should_spam_block (db : Option (List QueueRecord)) (pair mode side : String) : Bool :=
  match db with
  | none => false
  | some store =>
    match store.find? (qmatches pair mode) with
    | none => false
    | some last_signal => decide (last_signal.side = side)

/-- `publish_signal` from `ai/scheduler.py`: with no Firestore client only a
log line is produced; otherwise a new pending record is prepended (newest
first). Result: the store after the call and the lines printed. -/
def publish_signal (db : Option (List QueueRecord)) (pair mode side : String)
    (xscore : ℤ) (signal : Signal) (features : TFBundle) (tier : String) :
    Option (List QueueRecord) × List String :=
  match db with
  | none => (none, ["[SIGNAL] " ++ pair ++ " " ++ mode ++ " " ++ side
      ++ " tier=" ++ tier ++ " (not saved: no firestore)"])
  | some store =>
    (some ({ pair := pair, mode := mode, side := side, tier := tier,
             xscore := xscore, features := features, signal := signal,
             status := Status.pending, createdAt := 0 } :: store),
     ["[QUEUED] " ++ pair ++ " " ++ mode ++ " " ++ side ++ " tier=" ++ tier
      ++ " (pending)"])

/-- The pair allowlist gate shared by `scan_pair` and `/signals/generate`:
reject only when the configured list is non-empty and the (normalized) pair is
not in it. `pairN` is already upper-cased and stripped by the caller. -/
def allowlist_rejects (cfg : Config) (pairN : String) : Bool :=
  let allowed := (cfg.pairs.getD []).map (fun p => p.toUpper.trim)
  decide (¬allowed = [] ∧ ¬pairN ∈ allowed)

/-- `scan_pair` from `ai/scheduler.py`. External effects are explicit: the
three confirmation dataframes and the decision-timeframe dataframe stand for
the Binance fetches, `db` for the Firestore client. The result is the store
after the run and the lines printed; the Python function itself returns `None`
on every path, so gate failures are observable only through these effects. -/
def scan_pair (cfg : Config) (df5 df15 df1h dfMode : List Candle)
    (db : Option (List QueueRecord)) (pair mode : String) :
    Option (List QueueRecord) × List String :=
  if cfg.enabled.getD true = false then (db, ["[ENGINE OFF] Kill switch enabled"])
  else
    let pairN := pair.toUpper.trim
    if allowlist_rejects cfg pairN then (db, [])
    else
      let conf := multi_tf_confirm df5 df15 df1h
      if conf.ok = false then (db, [])
      else
        let xscore := calculate_xscore conf.bundle
        let tier := tier_from_xscore xscore cfg
        if tier = "reject" then (db, [])
        else
          match generate_signal dfMode mode with
          | none => (db, [])
          | some signal =>
            if ¬signal.side = conf.side then (db, [])
            else if should_spam_block db pairN mode conf.side then (db, [])
            else publish_signal db pairN mode conf.side xscore signal conf.bundle tier

/-- Request body of `/signals/generate` (`GenerateSignalRequest` in `main.py`);
the optional timeframe only selects which dataframe is fetched, which is already
a parameter here. -/
structure GenRequest where
  symbol : String
  mode : String
deriving DecidableEq

/-- Terminal outcome of the `/signals/generate` handler: an HTTPException, a
`"no_signal"` body with its reason string, or the signal payload (condensed to
the routed signal, tier and xscore; the id/timestamp fields are supplied by the
shell). -/
inductive GenResult where
  | httpError (code : ℕ) (detail : String)
  | noSignal (reason : String)
  | payload (sig : Signal) (tier : String) (xscore : ℤ)
deriving DecidableEq

/-- The post-allowlist part of `signals_generate` in `main.py`. -/
def signals_generate_rest (cfg : Config) (req : GenRequest)
    (df5 df15 df1h dfMode : List Candle) : GenResult :=
  let conf := multi_tf_confirm df5 df15 df1h
  if conf.ok = false then .noSignal "multi_tf_confirm failed"
  else
    let xscore := calculate_xscore conf.bundle
    let routed_tier := tier_from_xscore xscore cfg
    if routed_tier = "reject" then .noSignal "xscore below thresholds"
    else
      match generate_signal dfMode req.mode with
      | none => .noSignal "No breakout / BOS trigger"
      | some raw =>
        if ¬raw.side = conf.side then .noSignal "side mismatch multiTF"
        else .payload raw routed_tier xscore

/-- `signals_generate` (`POST /signals/generate`) from `main.py`: kill switch →
HTTP 503, allowlist → HTTP 400, then the confirmation/scoring/routing/build
pipeline. -/
def signals_generate (cfg : Config) (req : GenRequest)
    (df5 df15 df1h dfMode : List Candle) : GenResult :=
  let symbol := req.symbol.toUpper.trim
  if cfg.enabled.getD true = false then .httpError 503 "Signal engine disabled"
  else if allowlist_rejects cfg symbol then
    .httpError 400 ("Pair not allowed: " ++ symbol)
  else signals_generate_rest cfg req df5 df15 df1h dfMode

/-- A flat candle at price `p` with volume 1. -/
def flatC (p : ℚ) : Candle := ⟨p, p, p, p, 1⟩

/-- Single-candle dataframe exercising the minimal valid extractor input. -/
def ex2w : List Candle := [⟨1, 2, 1, 2, 3⟩]

/-- Fast (5m) series for the multi-timeframe counterexample: 24 flat candles at
100, then a breakout close at 102 over the prior 20-bar high of 100. -/
def c3df5 : List Candle := List.replicate 24 (flatC 100) ++ [⟨100, 102, 100, 102, 1⟩]

/-- Medium (15m) series with only 24 candles: 22 flat candles at 100, then two
at 50 — the slow EMA is unavailable, so the EMA separation is large and
`trend_strength = 0.3` despite the short history. -/
def c3df15 : List Candle := List.replicate 22 (flatC 100) ++ [flatC 50, flatC 50]

/-- Degenerate series for the risk claim: each candle's high and low sit at the
previous close while closes keep rising, so every true range in the ATR window
is zero yet the last close breaks the prior 20-bar high. The closes lie outside
their own candle's high/low range, which real feeds never produce. -/
def ex4 : List Candle :=
  ⟨1, 1, 1, 1, 1⟩ ::
    (List.range 21).map (fun j => ⟨(j:ℚ) + 1, (j:ℚ) + 1, (j:ℚ) + 1, (j:ℚ) + 2, 1⟩)

/-- Well-formed breakout series: 20 flat candles at 100, then a close at 102. -/
def ex4w : List Candle := List.replicate 20 (flatC 100) ++ [⟨100, 102, 100, 102, 1⟩]

/-- Well-formed breakout series at a price scale of 10⁻⁶: the entry paddings are
far below the 4-decimal rounding quantum of `round(x, 4)`. -/
def ex8 : List Candle :=
  List.replicate 20 (flatC (1/1000000)) ++
    [⟨1/1000000, 2/1000000, 1/1000000, 2/1000000, 1⟩]

/-- Well-formed breakout series at a normal price scale. -/
def ex8w : List Candle := List.replicate 20 (flatC 50) ++ [⟨50, 55, 50, 55, 1⟩]

/-- Config with the kill switch off. -/
def cfgOff : Config := ⟨some false, none, none, none, none⟩

/-- Config with a one-pair allowlist and everything else absent. -/
def cfgAllow : Config := ⟨none, some ["BTCUSDT"], none, none, none⟩

/-- Config where only the free threshold is present (lowered to 10). -/
def cfgPartial : Config := ⟨none, none, some (.pint 10), none, none⟩

/-- Config whose pro threshold is a non-numeric string. -/
def cfgBadPro : Config := ⟨none, none, none, some (.pstr "seventy"), none⟩

/-- Config with an explicitly empty pairs list. -/
def cfgNoPairs : Config := ⟨none, some [], none, none, none⟩

/-! ### Helper lemmas -/

theorem clamp01_nonneg (x : ℚ) : 0 ≤ clamp01 x := by
  unfold clamp01
  exact le_min (le_max_right x 0) (by norm_num)

theorem clamp01_le_one (x : ℚ) : clamp01 x ≤ 1 := min_le_right _ _

theorem normalize_nonneg (x lo hi : ℚ) : 0 ≤ normalize_from_range x lo hi := by
  unfold normalize_from_range
  split
  · exact le_refl 0
  · exact clamp01_nonneg _

theorem normalize_le_one (x lo hi : ℚ) : normalize_from_range x lo hi ≤ 1 := by
  unfold normalize_from_range
  split
  · norm_num
  · exact clamp01_le_one _

theorem foldl_max_init (l : List ℚ) : ∀ b : ℚ, b ≤ l.foldl max b := by
  induction l with
  | nil => intro b; exact le_refl b
  | cons x xs ih =>
    intro b
    exact le_trans (le_max_left b x) (ih (max b x))

theorem foldl_max_mem (l : List ℚ) : ∀ (b a : ℚ), a ∈ l → a ≤ l.foldl max b := by
  induction l with
  | nil => intro b a ha; simp at ha
  | cons x xs ih =>
    intro b a ha
    rcases List.mem_cons.mp ha with h | h
    · subst h
      exact le_trans (le_max_right b a) (foldl_max_init xs (max b a))
    · exact ih (max b x) a h

theorem le_qmax (l : List ℚ) (a : ℚ) (ha : a ∈ l) : a ≤ qmax l := by
  cases l with
  | nil => simp at ha
  | cons x xs =>
    rcases List.mem_cons.mp ha with h | h
    · subst h; exact foldl_max_init xs a
    · exact foldl_max_mem xs x a h

theorem foldl_min_init (l : List ℚ) : ∀ b : ℚ, l.foldl min b ≤ b := by
  induction l with
  | nil => intro b; exact le_refl b
  | cons x xs ih =>
    intro b
    exact le_trans (ih (min b x)) (min_le_left b x)

theorem foldl_min_mem (l : List ℚ) : ∀ (b a : ℚ), a ∈ l → l.foldl min b ≤ a := by
  induction l with
  | nil => intro b a ha; simp at ha
  | cons x xs ih =>
    intro b a ha
    rcases List.mem_cons.mp ha with h | h
    · subst h
      exact le_trans (foldl_min_init xs (min b a)) (min_le_right b a)
    · exact ih (min b x) a h

theorem qmin_le (l : List ℚ) (a : ℚ) (ha : a ∈ l) : qmin l ≤ a := by
  cases l with
  | nil => simp at ha
  | cons x xs =>
    rcases List.mem_cons.mp ha with h | h
    · subst h; exact foldl_min_init xs a
    · exact foldl_min_mem xs x a h

theorem qsum_nonneg (l : List ℚ) (h : ∀ x ∈ l, 0 ≤ x) : 0 ≤ l.sum := by
  induction l with
  | nil => simp
  | cons x xs ih =>
    simp only [List.sum_cons]
    have hx := h x (List.mem_cons_self x xs)
    have hxs := ih (fun y hy => h y (List.mem_cons_of_mem x hy))
    linarith

theorem qsum_zero_all_zero (l : List ℚ) (h : ∀ x ∈ l, 0 ≤ x) (hs : l.sum = 0) :
    ∀ x ∈ l, x = 0 := by
  induction l with
  | nil => intro x hx; simp at hx
  | cons a xs ih =>
    intro x hx
    simp only [List.sum_cons] at hs
    have ha := h a (List.mem_cons_self a xs)
    have hxs : 0 ≤ xs.sum := qsum_nonneg xs (fun y hy => h y (List.mem_cons_of_mem a hy))
    have ha0 : a = 0 := by linarith
    have hsum0 : xs.sum = 0 := by linarith
    rcases List.mem_cons.mp hx with h1 | h1
    · subst h1; exact ha0
    · exact ih (fun y hy => h y (List.mem_cons_of_mem a hy)) hsum0 x h1

theorem nthC_mem (df : List Candle) : ∀ i, i < df.length → nthC df i ∈ df := by
  induction df with
  | nil => intro i hi; simp at hi
  | cons c cs ih =>
    intro i hi
    cases i with
    | zero => simp [nthC, List.getD]
    | succ j =>
      have : nthC (c :: cs) (j + 1) = nthC cs j := by simp [nthC, List.getD]
      rw [this]
      exact List.mem_cons_of_mem c (ih j (by simpa using hi))

theorem floor_le_roundHE (q : ℚ) : ⌊q⌋ ≤ roundHE q := by
  unfold roundHE
  split_ifs <;> omega

theorem roundHE_le_floor_add_one (q : ℚ) : roundHE q ≤ ⌊q⌋ + 1 := by
  unfold roundHE
  split_ifs <;> omega

theorem roundHE_mono {x y : ℚ} (h : x ≤ y) : roundHE x ≤ roundHE y := by
  have hf : ⌊x⌋ ≤ ⌊y⌋ := Int.floor_mono h
  rcases lt_or_eq_of_le hf with hlt | heq
  · have h1 := roundHE_le_floor_add_one x
    have h2 := floor_le_roundHE y
    omega
  · have hr : x - ⌊x⌋ ≤ y - ⌊y⌋ := by
      rw [heq]
      linarith
    unfold roundHE
    rw [heq] at hr ⊢
    split_ifs <;> first | omega | linarith

theorem pyround4_mono {x y : ℚ} (h : x ≤ y) : pyround4 x ≤ pyround4 y := by
  unfold pyround4
  have h1 : x * 10000 ≤ y * 10000 := by linarith
  have h2 : roundHE (x * 10000) ≤ roundHE (y * 10000) := roundHE_mono h1
  have h3 : ((roundHE (x * 10000) : ℚ)) ≤ ((roundHE (y * 10000) : ℚ)) := by
    exact_mod_cast h2
  linarith

theorem trAt_nonneg (df : List Candle) (i : ℕ) (hi : i ≠ 0) : 0 ≤ trAt df i := by
  unfold trAt
  rw [if_neg hi]
  exact le_trans (abs_nonneg _) (le_max_right _ _)

theorem tr_zero_high (df : List Candle) (i : ℕ) (hi : i ≠ 0) (h : trAt df i = 0) :
    (nthC df i).high = (nthC df (i - 1)).close := by
  unfold trAt at h
  rw [if_neg hi] at h
  have h1 : |(nthC df i).high - (nthC df (i - 1)).close| ≤ 0 := by
    calc |(nthC df i).high - (nthC df (i - 1)).close|
        ≤ max ((nthC df i).high - (nthC df i).low)
            |(nthC df i).high - (nthC df (i - 1)).close| := le_max_right _ _
      _ ≤ max (max ((nthC df i).high - (nthC df i).low)
            |(nthC df i).high - (nthC df (i - 1)).close|)
            |(nthC df i).low - (nthC df (i - 1)).close| := le_max_left _ _
      _ = 0 := h
  have := abs_nonneg ((nthC df i).high - (nthC df (i - 1)).close)
  have : |(nthC df i).high - (nthC df (i - 1)).close| = 0 := le_antisymm h1 this
  have := abs_eq_zero.mp this
  linarith

theorem tr_zero_low (df : List Candle) (i : ℕ) (hi : i ≠ 0) (h : trAt df i = 0) :
    (nthC df i).low = (nthC df (i - 1)).close := by
  unfold trAt at h
  rw [if_neg hi] at h
  have h1 : |(nthC df i).low - (nthC df (i - 1)).close| ≤ 0 := by
    calc |(nthC df i).low - (nthC df (i - 1)).close|
        ≤ max (max ((nthC df i).high - (nthC df i).low)
            |(nthC df i).high - (nthC df (i - 1)).close|)
            |(nthC df i).low - (nthC df (i - 1)).close| := le_max_right _ _
      _ = 0 := h
  have h2 := abs_nonneg ((nthC df i).low - (nthC df (i - 1)).close)
  have h3 : |(nthC df i).low - (nthC df (i - 1)).close| = 0 := le_antisymm h1 h2
  have := abs_eq_zero.mp h3
  linarith

theorem atrLast_eq (df : List Candle) (hn : 14 ≤ df.length) :
    atrLast df = some ((((List.range 14).map
      (fun k => trAt df (df.length - 14 + k))).sum) / 14) := by
  unfold atrLast rollMeanLast
  rw [if_pos hn]
  norm_num

theorem atr_nonneg (df : List Candle) (hn : 15 ≤ df.length) :
    0 ≤ safe_last (atrLast df) 0 := by
  rw [atrLast_eq df (by omega)]
  unfold safe_last
  simp only [Option.getD_some]
  apply div_nonneg _ (by norm_num)
  apply qsum_nonneg
  intro x hx
  rcases List.mem_map.mp hx with ⟨k, hk, rfl⟩
  have hk14 := List.mem_range.mp hk
  exact trAt_nonneg df _ (by omega)

theorem atr_zero_window (df : List Candle) (hn : 15 ≤ df.length)
    (hA : safe_last (atrLast df) 0 = 0) :
    ∀ i, df.length - 14 ≤ i → i < df.length → trAt df i = 0 := by
  intro i hlo hhi
  rw [atrLast_eq df (by omega)] at hA
  unfold safe_last at hA
  simp only [Option.getD_some] at hA
  have hnn : ∀ x ∈ (List.range 14).map (fun k => trAt df (df.length - 14 + k)), 0 ≤ x := by
    intro x hx
    rcases List.mem_map.mp hx with ⟨k, hk, rfl⟩
    have := List.mem_range.mp hk
    exact trAt_nonneg df _ (by omega)
  have hsum : ((List.range 14).map (fun k => trAt df (df.length - 14 + k))).sum = 0 := by
    have := hA
    field_simp at this
    exact this
  have hall := qsum_zero_all_zero _ hnn hsum
  have hmem : trAt df i ∈ (List.range 14).map (fun k => trAt df (df.length - 14 + k)) := by
    apply List.mem_map.mpr
    refine ⟨i - (df.length - 14), List.mem_range.mpr (by omega), ?_⟩
    congr 1
    omega
  exact hall _ hmem

theorem hh20p_some_len (df : List Candle) (hh : ℚ) (h : hh20p df = some hh) :
    21 ≤ df.length := by
  unfold hh20p at h
  by_cases hn : 21 ≤ df.length
  · exact hn
  · rw [if_neg hn] at h; exact absurd h (by simp)

theorem hh20p_ge_prev_high (df : List Candle) (hh : ℚ) (h : hh20p df = some hh) :
    (nthC df (df.length - 2)).high ≤ hh := by
  have hn := hh20p_some_len df hh h
  unfold hh20p at h
  rw [if_pos hn] at h
  have h2 := Option.some.inj h
  rw [← h2]
  apply le_qmax
  apply List.mem_map.mpr
  refine ⟨19, List.mem_range.mpr (by omega), ?_⟩
  congr 2
  omega

theorem ll20p_some_len (df : List Candle) (ll : ℚ) (h : ll20p df = some ll) :
    21 ≤ df.length := by
  unfold ll20p at h
  by_cases hn : 21 ≤ df.length
  · exact hn
  · rw [if_neg hn] at h; exact absurd h (by simp)

theorem ll20p_le_prev_low (df : List Candle) (ll : ℚ) (h : ll20p df = some ll) :
    ll ≤ (nthC df (df.length - 2)).low := by
  have hn := ll20p_some_len df ll h
  unfold ll20p at h
  rw [if_pos hn] at h
  have h2 := Option.some.inj h
  rw [← h2]
  apply qmin_le
  apply List.mem_map.mpr
  refine ⟨19, List.mem_range.mpr (by omega), ?_⟩
  congr 2
  omega

theorem close_chain_of_atr_zero (df : List Candle) (hn : 21 ≤ df.length)
    (hwf : ∀ c ∈ df, c.low ≤ c.close ∧ c.close ≤ c.high)
    (hA : safe_last (atrLast df) 0 = 0) :
    (nthC df (df.length - 2)).high = lastClose df ∧
    (nthC df (df.length - 2)).low = lastClose df := by
  have tr1 : trAt df (df.length - 1) = 0 :=
    atr_zero_window df (by omega) hA (df.length - 1) (by omega) (by omega)
  have tr2 : trAt df (df.length - 2) = 0 :=
    atr_zero_window df (by omega) hA (df.length - 2) (by omega) (by omega)
  have e11 : df.length - 1 - 1 = df.length - 2 := by omega
  have e21 : df.length - 2 - 1 = df.length - 3 := by omega
  have h1h : (nthC df (df.length - 1)).high = (nthC df (df.length - 2)).close := by
    have := tr_zero_high df (df.length - 1) (by omega) tr1
    rwa [e11] at this
  have h1l : (nthC df (df.length - 1)).low = (nthC df (df.length - 2)).close := by
    have := tr_zero_low df (df.length - 1) (by omega) tr1
    rwa [e11] at this
  have h2h : (nthC df (df.length - 2)).high = (nthC df (df.length - 3)).close := by
    have := tr_zero_high df (df.length - 2) (by omega) tr2
    rwa [e21] at this
  have h2l : (nthC df (df.length - 2)).low = (nthC df (df.length - 3)).close := by
    have := tr_zero_low df (df.length - 2) (by omega) tr2
    rwa [e21] at this
  have hwf1 := hwf (nthC df (df.length - 1)) (nthC_mem df (df.length - 1) (by omega))
  have hwf2 := hwf (nthC df (df.length - 2)) (nthC_mem df (df.length - 2) (by omega))
  have hc12 : (nthC df (df.length - 1)).close = (nthC df (df.length - 2)).close := by
    have hu := hwf1.2
    have hl := hwf1.1
    rw [h1h] at hu
    rw [h1l] at hl
    linarith
  have hc23 : (nthC df (df.length - 2)).close = (nthC df (df.length - 3)).close := by
    have hu := hwf2.2
    have hl := hwf2.1
    rw [h2h] at hu
    rw [h2l] at hl
    linarith
  unfold lastClose
  constructor
  · rw [h2h, ← hc23, ← hc12]
  · rw [h2l, ← hc23, ← hc12]

theorem bosSide_inv (df : List Candle) (side : String) (h : bosSide df = some side) :
    ∃ hh ll, hh20p df = some hh ∧ ll20p df = some ll ∧
      ((side = "buy" ∧ hh < lastClose df) ∨ (side = "sell" ∧ lastClose df < ll)) := by
  unfold bosSide at h
  rcases hhh : hh20p df with _ | hh <;> rw [hhh] at h
  · exact absurd h (by simp)
  · rcases hll : ll20p df with _ | ll <;> rw [hll] at h
    · exact absurd h (by simp)
    · refine ⟨hh, ll, rfl, rfl, ?_⟩
      dsimp only at h
      split_ifs at h with h1 h2
      · exact Or.inl ⟨(Option.some.inj h).symm, h1⟩
      · exact Or.inr ⟨(Option.some.inj h).symm, h2⟩

theorem ll20p_of_len (df : List Candle) (hn : 21 ≤ df.length) :
    ∃ ll, ll20p df = some ll := by
  unfold ll20p
  rw [if_pos hn]
  exact ⟨_, rfl⟩

/-! ### Claim theorems -/

/-- C1: for every three-timeframe bundle, `calculate_xscore` returns exactly
the integer obtained by computing `35·structure_strength(fast) +
35·(0.6·trend_strength(medium) + 0.4·trend_strength(slow)) + 20·momentum(fast)
+ 10·volatility(fast)`, clamping to `[0,100]` and truncating toward zero
(the spec-side formula `xscore_spec`). -/
theorem C1_xscore_matches_spec (b : TFBundle) : calculate_xscore b = xscore_spec b := by
  unfold calculate_xscore xscore_spec
  dsimp only
  congr 1
  congr 1
  ring_nf

/-- C2: for every dataframe with at least one row (a valid extractor input),
all four feature fields returned by `extract_features` lie in `[0,1]`. -/
theorem C2_features_in_unit_interval (df : List Candle) (h : 1 ≤ df.length) :
    (0 ≤ (extract_features df).structure_strength ∧
      (extract_features df).structure_strength ≤ 1) ∧
    (0 ≤ (extract_features df).trend_strength ∧
      (extract_features df).trend_strength ≤ 1) ∧
    (0 ≤ (extract_features df).momentum ∧ (extract_features df).momentum ≤ 1) ∧
    (0 ≤ (extract_features df).volatility ∧ (extract_features df).volatility ≤ 1) := by
  unfold extract_features
  dsimp only
  exact ⟨⟨clamp01_nonneg _, clamp01_le_one _⟩, ⟨clamp01_nonneg _, clamp01_le_one _⟩,
    ⟨clamp01_nonneg _, clamp01_le_one _⟩,
    ⟨normalize_nonneg _ _ _, normalize_le_one _ _ _⟩⟩

/-- Witness for C2 at a concrete one-candle dataframe. -/
theorem C2_witness :
    1 ≤ ex2w.length ∧
    ((0 ≤ (extract_features ex2w).structure_strength ∧
      (extract_features ex2w).structure_strength ≤ 1) ∧
    (0 ≤ (extract_features ex2w).trend_strength ∧
      (extract_features ex2w).trend_strength ≤ 1) ∧
    (0 ≤ (extract_features ex2w).momentum ∧ (extract_features ex2w).momentum ≤ 1) ∧
    (0 ≤ (extract_features ex2w).volatility ∧ (extract_features ex2w).volatility ≤ 1)) :=
  ⟨by decide, C2_features_in_unit_interval ex2w (by decide)⟩

/-- C3 as stated is false: `multi_tf_confirm` only counts candles on the fast
5-minute series. Here the medium series has 24 < 25 candles, yet ok = true
(its slow EMA(50) is unavailable, so the EMA separation keeps
`trend_strength = 0.3` above the 0.25 gate). -/
theorem C3_counterexample :
    c3df15.length = 24 ∧ (multi_tf_confirm c3df5 c3df15 c3df15).ok = true := by
  constructor
  · decide
  · decide!

/-- C3 (amended): ok = false is guaranteed only when the fast 5m series has
fewer than 25 candles; a short medium or slow series is not itself checked. -/
theorem C3_fast_short_not_ok (df5 df15 df1h : List Candle) (h : df5.length < 25) :
    (multi_tf_confirm df5 df15 df1h).ok = false := by
  have hside : structure_side df5 = "none" := by unfold structure_side; rw [if_pos h]
  simp [multi_tf_confirm, hside]

/-- Witness for the amended C3 at concrete empty fetches. -/
theorem C3_witness :
    ([] : List Candle).length < 25 ∧ (multi_tf_confirm [] [] []).ok = false :=
  ⟨by decide, C3_fast_short_not_ok [] [] [] (by decide)⟩

/-- C4 as stated is false: `generate_signal` has no risk or ATR rejection. On
this degenerate series (every true range zero while closes rise, possible only
when closes escape their candle's high/low range) the computed risk is 0 and a
Signal is still returned. -/
theorem C4_counterexample :
    (generate_signal ex4 "scalp").isSome = true ∧ riskOf ex4 "scalp" = some 0 := by
  constructor
  · decide!
  · decide!

/-- C4 (amended): the source has no explicit `risk ≤ 0` / missing-ATR check,
but for well-formed candles (low ≤ close ≤ high) every returned Signal has the
ATR available and a strictly positive computed risk, so a non-positive risk or
missing ATR can only coincide with the "no trigger" (`None`) outcome. -/
theorem C4_risk_positive_when_wellformed (df : List Candle) (mode : String)
    (hwf : ∀ c ∈ df, c.low ≤ c.close ∧ c.close ≤ c.high)
    (hs : (generate_signal df mode).isSome = true) :
    (atrLast df).isSome = true ∧ ∃ r, riskOf df mode = some r ∧ 0 < r := by
  rcases hbos : bosSide df with _ | side
  · rw [generate_signal, hbos] at hs
    simp at hs
  · rcases bosSide_inv df side hbos with ⟨hh, ll, hhh, hll, hcase⟩
    have hn : 21 ≤ df.length := hh20p_some_len df hh hhh
    have hatr : (atrLast df).isSome = true := by
      unfold atrLast
      rw [if_pos (by omega : 14 ≤ df.length)]
      rfl
    refine ⟨hatr, riskRaw df mode side, by simp [riskOf, hbos], ?_⟩
    have hA0 : 0 ≤ safe_last (atrLast df) 0 := atr_nonneg df (by omega)
    have hwfP := hwf (nthC df (df.length - 2)) (nthC_mem df _ (by omega))
    have hPlh : (nthC df (df.length - 2)).low ≤ (nthC df (df.length - 2)).high :=
      le_trans hwfP.1 hwfP.2
    have hmid : entryMidOf df mode =
        ((nthC df (df.length - 2)).low + (nthC df (df.length - 2)).high) / 2 := by
      unfold entryMidOf entryMinOf entryMaxOf
      ring
    rcases hcase with ⟨hbuy, hlt⟩ | ⟨hsell, hlt⟩
    · have hsl : slOf df side =
          (nthC df (df.length - 2)).low - safe_last (atrLast df) 0 / 2 := by
        rw [hbuy]; unfold slOf; rw [if_pos rfl]
      unfold riskRaw
      rw [hmid, hsl]
      have hx : 0 ≤ ((nthC df (df.length - 2)).low + (nthC df (df.length - 2)).high) / 2 -
          ((nthC df (df.length - 2)).low - safe_last (atrLast df) 0 / 2) := by linarith
      rw [abs_of_nonneg hx]
      by_contra hc
      push_neg at hc
      have hAz : safe_last (atrLast df) 0 = 0 := by linarith
      have hchain := close_chain_of_atr_zero df hn hwf hAz
      have hhigh := hh20p_ge_prev_high df hh hhh
      rw [hchain.1] at hhigh
      linarith
    · have hsl : slOf df side =
          (nthC df (df.length - 2)).high + safe_last (atrLast df) 0 / 2 := by
        rw [hsell]; unfold slOf; rw [if_neg (by decide)]
      unfold riskRaw
      rw [hmid, hsl]
      have hx : ((nthC df (df.length - 2)).low + (nthC df (df.length - 2)).high) / 2 -
          ((nthC df (df.length - 2)).high + safe_last (atrLast df) 0 / 2) ≤ 0 := by linarith
      rw [abs_of_nonpos hx]
      by_contra hc
      push_neg at hc
      have hAz : safe_last (atrLast df) 0 = 0 := by linarith
      have hchain := close_chain_of_atr_zero df hn hwf hAz
      have hlow := ll20p_le_prev_low df ll hll
      rw [hchain.2] at hlow
      linarith

/-- Witness for the amended C4 at a concrete well-formed breakout series. -/
theorem C4_witness :
    (∀ c ∈ ex4w, c.low ≤ c.close ∧ c.close ≤ c.high) ∧
    (generate_signal ex4w "scalp").isSome = true ∧
    ((atrLast ex4w).isSome = true ∧ ∃ r, riskOf ex4w "scalp" = some r ∧ 0 < r) :=
  ⟨by decide, by decide!,
    C4_risk_positive_when_wellformed ex4w "scalp" (by decide) (by decide!)⟩

/-- C5: when the kill switch is off (`enabled = false`), `scan_pair` exits at
the CONFIG_CHECK gate: the queue store is returned unchanged — no QueueRecord
ever appended — for every pair, mode, fetched data and store state. -/
theorem C5_kill_switch_never_publishes (cfg : Config)
    (df5 df15 df1h dfMode : List Candle) (db : Option (List QueueRecord))
    (pair mode : String) (h : cfg.enabled = some false) :
    (scan_pair cfg df5 df15 df1h dfMode db pair mode).1 = db := by
  unfold scan_pair
  rw [h]
  simp

/-- Witness for C5 at a concrete disabled config. -/
theorem C5_witness :
    cfgOff.enabled = some false ∧
    (scan_pair cfgOff [] [] [] [] (some []) "BTCUSDT" "scalp").1 = some [] :=
  ⟨rfl, C5_kill_switch_never_publishes cfgOff [] [] [] [] (some []) "BTCUSDT" "scalp" rfl⟩

/-- C6 as stated is false: a merely missing key does not trigger the
all-or-nothing fallback. With only `min_xscore_free = 10` configured, the
router mixes the configured 10 with the defaults 70/85: score 10 routes to
"free", while the full default thresholds would reject it. -/
theorem C6_counterexample :
    tier_from_xscore 10 cfgPartial = "free" ∧ tier_defaults 10 = "reject" := by
  constructor
  · decide
  · decide

/-- C6 (amended): the all-or-nothing fallback is tied to conversion failure,
not to missing keys or non-monotone values: when `int()` of any of the three
looked-up values raises (models: `pyToInt … = none`), all three thresholds
revert to the defaults 55/70/85 together; a missing key instead falls back
individually inside `.get`, and ordering is never checked. -/
theorem C6_conversion_failure_full_defaults (x : ℤ) (cfg : Config)
    (h : pyToInt (cfg.min_xscore_free.getD (.pint 55)) = none ∨
         pyToInt (cfg.min_xscore_pro.getD (.pint 70)) = none ∨
         pyToInt (cfg.min_xscore_xpro.getD (.pint 85)) = none) :
    tier_from_xscore x cfg = tier_defaults x := by
  rcases hf : pyToInt (cfg.min_xscore_free.getD (.pint 55)) with _ | a <;>
    rcases hp : pyToInt (cfg.min_xscore_pro.getD (.pint 70)) with _ | b <;>
      rcases hxp : pyToInt (cfg.min_xscore_xpro.getD (.pint 85)) with _ | c <;>
        simp_all [tier_from_xscore, tier_defaults]

/-- Witness for the amended C6: a non-numeric pro threshold forces the full
default behaviour. -/
theorem C6_witness :
    (pyToInt (cfgBadPro.min_xscore_free.getD (.pint 55)) = none ∨
     pyToInt (cfgBadPro.min_xscore_pro.getD (.pint 70)) = none ∨
     pyToInt (cfgBadPro.min_xscore_xpro.getD (.pint 85)) = none) ∧
    tier_from_xscore 60 cfgBadPro = tier_defaults 60 :=
  ⟨Or.inr (Or.inl (by decide!)),
    C6_conversion_failure_full_defaults 60 cfgBadPro (Or.inr (Or.inl (by decide!)))⟩

/-- C7: assuming the store lookup succeeds (`db = some store`),
`should_spam_block` returns true exactly when the most recent pending
QueueRecord for that (pair, mode) exists and carries the candidate's side —
the store list is ordered newest first, so "most recent pending match" is the
first matching index, with no matching pending record at any smaller (newer)
index. A newest record with status approved or rejected is skipped by the
status filter and cannot itself suppress. -/
theorem C7_spam_block_iff_recent_pending_same_side
    (store : List QueueRecord) (pair mode side : String) :
    should_spam_block (some store) pair mode side = true ↔
    ∃ (i : ℕ) (r : QueueRecord), store[i]? = some r ∧
      (r.pair = pair ∧ r.mode = mode ∧ r.status = Status.pending) ∧ r.side = side ∧
      ∀ (j : ℕ) (rp : QueueRecord), j < i → store[j]? = some rp →
        ¬(rp.pair = pair ∧ rp.mode = mode ∧ rp.status = Status.pending) := by
  induction store with
  | nil => simp [should_spam_block]
  | cons a l ih =>
    by_cases hm : qmatches pair mode a = true
    · have hof : (a :: l).find? (qmatches pair mode) = some a :=
        List.find?_cons_of_pos _ hm
      have hma : a.pair = pair ∧ a.mode = mode ∧ a.status = Status.pending := by
        simpa [qmatches] using hm
      constructor
      · intro h
        have hside : a.side = side := by
          rw [should_spam_block, hof] at h
          simpa using h
        exact ⟨0, a, List.getElem?_cons_zero, hma, hside,
          fun j rp hj _ => absurd hj (by omega)⟩
      · rintro ⟨i, r, hget, hp, hs, hmin⟩
        cases i with
        | zero =>
          have hra : r = a := by
            rw [List.getElem?_cons_zero] at hget
            exact (Option.some.inj hget).symm
          subst hra
          rw [should_spam_block, hof]
          simpa using hs
        | succ i2 =>
          exact absurd hma (hmin 0 a (by omega) List.getElem?_cons_zero)
    · have hof : (a :: l).find? (qmatches pair mode) = l.find? (qmatches pair mode) :=
        List.find?_cons_of_neg _ (by simpa using hm)
      have hna : ¬(a.pair = pair ∧ a.mode = mode ∧ a.status = Status.pending) := by
        simpa [qmatches] using hm
      have hstep : should_spam_block (some (a :: l)) pair mode side =
          should_spam_block (some l) pair mode side := by
        rw [should_spam_block, should_spam_block, hof]
      rw [hstep, ih]
      constructor
      · rintro ⟨i, r, hget, hp, hs, hmin⟩
        refine ⟨i + 1, r, by simpa using hget, hp, hs, ?_⟩
        intro j rp hj hgj
        cases j with
        | zero =>
          have : rp = a := by
            rw [List.getElem?_cons_zero] at hgj
            exact (Option.some.inj hgj).symm
          subst this
          exact hna
        | succ j2 =>
          exact hmin j2 rp (by omega) (by simpa using hgj)
      · rintro ⟨i, r, hget, hp, hs, hmin⟩
        cases i with
        | zero =>
          have : r = a := by
            rw [List.getElem?_cons_zero] at hget
            exact (Option.some.inj hget).symm
          subst this
          exact absurd hp hna
        | succ i2 =>
          refine ⟨i2, r, by simpa using hget, hp, hs, ?_⟩
          intro j rp hj hgj
          exact hmin (j + 1) rp (by omega) (by simpa using hgj)

/-- C8 as stated is false: `generate_signal` rounds every price to 4 decimals
(`round(x, 4)`), so at a price scale of 10⁻⁶ a series with a clear breakout
above the prior 20-bar high (high 10⁻⁶, close 2·10⁻⁶) yields a buy Signal whose
entry_min equals entry_mid — the claimed strict inequality collapses. -/
theorem C8_counterexample :
    hh20p ex8 = some (1/1000000) ∧ lastClose ex8 = 2/1000000 ∧
    (generate_signal ex8 "scalp").map Signal.side = some "buy" ∧
    (generate_signal ex8 "scalp").map Signal.entry_min = some 0 ∧
    (generate_signal ex8 "scalp").map Signal.entry_mid = some 0 := by
  refine ⟨?_, ?_, ?_, ?_, ?_⟩
  · decide!
  · decide!
  · decide!
  · decide!
  · decide!

/-- C8 (amended): for every series whose last close exceeds the prior 20-bar
high (with a well-formed previous bar), `generate_signal` returns a buy Signal
with `entry_min ≤ entry_mid ≤ entry_max`, `sl ≤ entry_mid` and
`entry_mid ≤ tp1 ≤ tp2 ≤ tp3`; the inequalities are strict before the
4-decimal rounding but can collapse to equality at price scales below the
rounding quantum, so only the non-strict forms hold for the returned fields. -/
theorem C8_breakout_buy_ladder (df : List Candle) (mode : String) (hh : ℚ)
    (hhh : hh20p df = some hh) (hlt : hh < lastClose df)
    (hwfp : (nthC df (df.length - 2)).low ≤ (nthC df (df.length - 2)).high) :
    ∃ s, generate_signal df mode = some s ∧ s.side = "buy" ∧
      s.entry_min ≤ s.entry_mid ∧ s.entry_mid ≤ s.entry_max ∧
      s.sl ≤ s.entry_mid ∧ s.entry_mid ≤ s.tp1 ∧ s.tp1 ≤ s.tp2 ∧ s.tp2 ≤ s.tp3 := by
  have hn : 21 ≤ df.length := hh20p_some_len df hh hhh
  obtain ⟨ll, hll⟩ := ll20p_of_len df hn
  have hbos : bosSide df = some "buy" := by
    unfold bosSide
    rw [hhh, hll]
    dsimp only
    rw [if_pos hlt]
  have hA0 : 0 ≤ safe_last (atrLast df) 0 := atr_nonneg df (by omega)
  have hpad : 0 ≤ padOf df mode := by
    unfold padOf
    apply mul_nonneg hA0
    split_ifs <;> norm_num
  have hsl : slOf df "buy" =
      (nthC df (df.length - 2)).low - safe_last (atrLast df) 0 / 2 := by
    unfold slOf
    rw [if_pos rfl]
  have h1 : entryMinOf df mode ≤ entryMidOf df mode := by
    unfold entryMidOf entryMinOf entryMaxOf
    linarith
  have h2 : entryMidOf df mode ≤ entryMaxOf df mode := by
    unfold entryMidOf entryMinOf entryMaxOf
    linarith
  have h3 : slOf df "buy" ≤ entryMidOf df mode := by
    rw [hsl]
    unfold entryMidOf entryMinOf entryMaxOf
    linarith
  have hr0 : 0 ≤ riskRaw df mode "buy" := abs_nonneg _
  unfold generate_signal
  rw [hbos]
  dsimp only
  rw [if_pos rfl]
  refine ⟨_, rfl, rfl, ?_, ?_, ?_, ?_, ?_, ?_⟩
  · exact pyround4_mono h1
  · exact pyround4_mono h2
  · exact pyround4_mono h3
  · apply pyround4_mono
    have : riskRaw df mode "buy" = |entryMidOf df mode - slOf df "buy"| := rfl
    nlinarith [hr0]
  · apply pyround4_mono
    have : riskRaw df mode "buy" = |entryMidOf df mode - slOf df "buy"| := rfl
    nlinarith [hr0]
  · apply pyround4_mono
    have : riskRaw df mode "buy" = |entryMidOf df mode - slOf df "buy"| := rfl
    nlinarith [hr0]

/-- Witness for the amended C8 at a concrete well-formed breakout series. -/
theorem C8_witness :
    hh20p ex8w = some 50 ∧ (50:ℚ) < lastClose ex8w ∧
    (nthC ex8w (ex8w.length - 2)).low ≤ (nthC ex8w (ex8w.length - 2)).high ∧
    ∃ s, generate_signal ex8w "swing" = some s ∧ s.side = "buy" ∧
      s.entry_min ≤ s.entry_mid ∧ s.entry_mid ≤ s.entry_max ∧
      s.sl ≤ s.entry_mid ∧ s.entry_mid ≤ s.tp1 ∧ s.tp1 ≤ s.tp2 ∧ s.tp2 ≤ s.tp3 :=
  ⟨by decide!, by decide!, by decide,
    C8_breakout_buy_ladder ex8w "swing" 50 (by decide!) (by decide!) (by decide)⟩

/-- C9 as stated is false: `scan_pair` returns a bare `None` on every path and
several gates exit without any structured outcome or reason code. Concretely,
an allowlist rejection terminates with the store untouched and not even a log
line — a terminal outcome with no machine-readable code at all. -/
theorem C9_counterexample :
    scan_pair cfgAllow [] [] [] [] (some []) "ETHUSDT" "scalp" = (some [], []) := by
  decide!

/-- C9 (amended): terminal outcomes of `scan_pair` carry no reason codes; in
particular, whenever the kill switch is on but the pair fails the allowlist,
the scan terminates silently — the store unchanged and no output produced.
(The confirm, tier, breakout, side and spam gates exit in the same silent
way; only the kill-switch, score-failure and publish paths print a log.) -/
theorem C9_gate_failure_silent (cfg : Config) (df5 df15 df1h dfMode : List Candle)
    (db : Option (List QueueRecord)) (pair mode : String)
    (h1 : cfg.enabled.getD true = true)
    (h2 : allowlist_rejects cfg (pair.toUpper.trim) = true) :
    scan_pair cfg df5 df15 df1h dfMode db pair mode = (db, []) := by
  simp [scan_pair, h1, h2]

/-- Witness for the amended C9 at a concrete config and pair. -/
theorem C9_witness :
    cfgAllow.enabled.getD true = true ∧
    allowlist_rejects cfgAllow ("SOLUSDT".toUpper.trim) = true ∧
    scan_pair cfgAllow [] [] [] [] none "SOLUSDT" "swing" = (none, []) :=
  ⟨by decide, by decide!,
    C9_gate_failure_silent cfgAllow [] [] [] [] none "SOLUSDT" "swing"
      (by decide) (by decide!)⟩

theorem signals_generate_rest_ne_httpError (cfg : Config) (req : GenRequest)
    (df5 df15 df1h dfMode : List Candle) (c : ℕ) (d : String) :
    signals_generate_rest cfg req df5 df15 df1h dfMode ≠ .httpError c d := by
  unfold signals_generate_rest
  split <;> dsimp only <;> split_ifs <;> simp

/-- C10: with an empty or absent pairs list, the allowlist gate rejects no
pair: `allowlist_rejects` (the gate used by `scan_pair`) is false for every
pair, and the HTTP generate path can never return the 400 "Pair not allowed"
error. -/
theorem C10_empty_allowlist_allows_all (cfg : Config) (h : cfg.pairs.getD [] = []) :
    (∀ pairN, allowlist_rejects cfg pairN = false) ∧
    ∀ (req : GenRequest) (df5 df15 df1h dfMode : List Candle) (d : String),
      signals_generate cfg req df5 df15 df1h dfMode ≠ .httpError 400 d := by
  have hall : ∀ pairN, allowlist_rejects cfg pairN = false := by
    intro p
    unfold allowlist_rejects
    rw [h]
    simp
  refine ⟨hall, ?_⟩
  intro req df5 df15 df1h dfMode d
  unfold signals_generate
  simp only [hall, Bool.false_eq_true, if_false]
  split
  · simp
  · exact signals_generate_rest_ne_httpError cfg req df5 df15 df1h dfMode 400 d

/-- Witness for C10 at a concrete config with an explicitly empty pairs list. -/
theorem C10_witness :
    cfgNoPairs.pairs.getD [] = [] ∧ allowlist_rejects cfgNoPairs "DOGEUSDT" = false :=
  ⟨rfl, (C10_empty_allowlist_allows_all cfgNoPairs rfl).1 "DOGEUSDT"⟩
